import Mathlib

/-!
Verification development for the ngl-storyteller canvas editor.

The geometry update functions are shallow embeddings of the pure helpers in
src/components/Canvas.tsx (calculateDragUpdate, calculateRotationUpdate,
calculateResizeUpdate, calculateCropUpdate, updateScale), and the layer
collection operations embed the handlers in src/App.tsx
(handleSourceImageUpload, removeItem, handleSort).  JavaScript numbers are
modelled by the rational numbers, except for the rotation computation which
uses the reals because of atan2.  Fields and names follow the source.
-/

namespace NGL

/-- Embeds the Position interface of src/types.ts. -/
structure Pos (α : Type) where
  x : α
  y : α
deriving DecidableEq

/-- Embeds the Size interface of src/types.ts. -/
structure Size (α : Type) where
  width : α
  height : α
deriving DecidableEq

/-- Embeds the Crop interface of src/types.ts: four inset percentages. -/
structure Crop (α : Type) where
  top : α
  bottom : α
  left : α
  right : α
deriving DecidableEq

/-- Embeds the LayerStyle union used by the app (normal, sticker, ghost, ink,
pumpkin, manga). -/
inductive LayerStyle where
  | normal
  | sticker
  | ghost
  | ink
  | pumpkin
  | manga
deriving DecidableEq

/-- Embeds the DragMode enum of src/types.ts. -/
inductive DragMode where
  | NONE
  | DRAG
  | RESIZE_TL
  | RESIZE_TR
  | RESIZE_BL
  | RESIZE_BR
  | ROTATE
  | CROP_T
  | CROP_B
  | CROP_L
  | CROP_R
deriving DecidableEq

/-- Embeds the InitialItemState interface of src/components/Canvas.tsx: the
frozen snapshot of a layer taken at gesture start. -/
structure InitialItemState (α : Type) where
  pos : Pos α
  size : Size α
  rotation : α
  crop : Crop α
deriving DecidableEq

/-- Models the partial update object (a TypeScript object literal with a
subset of the CollageItem transform fields) returned by the geometry update
functions in src/components/Canvas.tsx; a field that the source object
literal omits is none. -/
structure Patch (α : Type) where
  position : Option (Pos α)
  size : Option (Size α)
  rotation : Option α
  crop : Option (Crop α)
deriving DecidableEq

/-- Position carried by a patch, defaulting to the origin when the patch has
no position field. -/
def Patch.posD (p : Patch ℚ) : Pos ℚ := p.position.getD ⟨0, 0⟩

/-- Size carried by a patch, defaulting to the zero size when the patch has
no size field. -/
def Patch.sizeD (p : Patch ℚ) : Size ℚ := p.size.getD ⟨0, 0⟩

/-- Embeds calculateDragUpdate (src/components/Canvas.tsx, lines 23 to 34):
adds the canvas-space delta to the snapshot position and returns a patch
holding only the position field. -/
def calculateDragUpdate (initialState : InitialItemState ℚ) (dx dy : ℚ) : Patch ℚ :=
  { position := some { x := initialState.pos.x + dx, y := initialState.pos.y + dy },
    size := none, rotation := none, crop := none }

/-- Embeds calculateResizeUpdate (src/components/Canvas.tsx, lines 62 to 108).
The source initializes newWidth, newHeight, newX, newY to the snapshot values
and overwrites them in a switch on the drag mode; the catch-all arm below is
that fall-through.  The TypeScript comparison visW_pct > 0.05 is written with
the rational 1/20. -/
def calculateResizeUpdate (dragMode : DragMode) (dx : ℚ)
    (initialState : InitialItemState ℚ) : Patch ℚ :=
  let aspectRatio := initialState.size.width / initialState.size.height
  let visW_pct := (100 - initialState.crop.left - initialState.crop.right) / 100
  let scaleX := if visW_pct > 1/20 then 1 / visW_pct else 1
  let effectiveDx := dx * scaleX
  match dragMode with
  | DragMode.RESIZE_TL =>
      let newWidth := max 50 (initialState.size.width - effectiveDx)
      let newHeight := newWidth / aspectRatio
      { position := some ⟨initialState.pos.x + (initialState.size.width - newWidth),
                          initialState.pos.y + (initialState.size.height - newHeight)⟩,
        size := some ⟨newWidth, newHeight⟩, rotation := none, crop := none }
  | DragMode.RESIZE_TR =>
      let newWidth := max 50 (initialState.size.width + effectiveDx)
      let newHeight := newWidth / aspectRatio
      { position := some ⟨initialState.pos.x,
                          initialState.pos.y + (initialState.size.height - newHeight)⟩,
        size := some ⟨newWidth, newHeight⟩, rotation := none, crop := none }
  | DragMode.RESIZE_BL =>
      let newWidth := max 50 (initialState.size.width - effectiveDx)
      let newHeight := newWidth / aspectRatio
      { position := some ⟨initialState.pos.x + (initialState.size.width - newWidth),
                          initialState.pos.y⟩,
        size := some ⟨newWidth, newHeight⟩, rotation := none, crop := none }
  | DragMode.RESIZE_BR =>
      let newWidth := max 50 (initialState.size.width + effectiveDx)
      let newHeight := newWidth / aspectRatio
      { position := some ⟨initialState.pos.x, initialState.pos.y⟩,
        size := some ⟨newWidth, newHeight⟩, rotation := none, crop := none }
  | _ =>
      { position := some ⟨initialState.pos.x, initialState.pos.y⟩,
        size := some ⟨initialState.size.width, initialState.size.height⟩,
        rotation := none, crop := none }

/-- Embeds calculateCropUpdate (src/components/Canvas.tsx, lines 110 to 139).
Each dragged edge inset is clamped by Math.min(Math.max(0, value), 90 minus
the opposing inset); modes other than the four crop modes leave the crop
unchanged (the switch has no default arm). -/
def calculateCropUpdate (dragMode : DragMode) (dx dy : ℚ)
    (initialState : InitialItemState ℚ) : Patch ℚ :=
  let pxToPctX := fun (val : ℚ) => val / initialState.size.width * 100
  let pxToPctY := fun (val : ℚ) => val / initialState.size.height * 100
  let c := initialState.crop
  let newCrop : Crop ℚ :=
    match dragMode with
    | DragMode.CROP_T =>
        { c with top := min (max 0 (c.top + pxToPctY dy)) (90 - c.bottom) }
    | DragMode.CROP_B =>
        { c with bottom := min (max 0 (c.bottom - pxToPctY dy)) (90 - c.top) }
    | DragMode.CROP_L =>
        { c with left := min (max 0 (c.left + pxToPctX dx)) (90 - c.right) }
    | DragMode.CROP_R =>
        { c with right := min (max 0 (c.right - pxToPctX dx)) (90 - c.left) }
    | _ => c
  { position := none, size := none, rotation := none, crop := some newCrop }

/-- Models the JavaScript Math.atan2 function on the reals: the angle of the
point (x, y), in the range from minus pi to pi. -/
noncomputable def atan2 (y x : ℝ) : ℝ :=
  if 0 < x then Real.arctan (y / x)
  else if x < 0 ∧ 0 ≤ y then Real.arctan (y / x) + Real.pi
  else if x < 0 ∧ y < 0 then Real.arctan (y / x) - Real.pi
  else if x = 0 ∧ 0 < y then Real.pi / 2
  else if x = 0 ∧ y < 0 then -(Real.pi / 2)
  else 0

/-- Embeds calculateRotationUpdate (src/components/Canvas.tsx, lines 36 to
60).  The mouse event supplies clientX and clientY; the canvas element
bounding rectangle supplies canvasLeft and canvasTop.  The visual center of
the cropped region is projected to screen space and the angle from that
center to the pointer, converted to degrees plus a 90 degree offset, becomes
the new rotation; the returned patch holds only the rotation field. -/
noncomputable def calculateRotationUpdate (clientX clientY : ℝ)
    (initialState : InitialItemState ℝ) (scale : ℝ)
    (canvasLeft canvasTop : ℝ) : Patch ℝ :=
  let visW_pct := (100 - initialState.crop.left - initialState.crop.right) / 100
  let visH_pct := (100 - initialState.crop.top - initialState.crop.bottom) / 100
  let offX := initialState.size.width * (initialState.crop.left / 100)
  let offY := initialState.size.height * (initialState.crop.top / 100)
  let itemCenterX_unscaled := initialState.pos.x + offX + (initialState.size.width * visW_pct) / 2
  let itemCenterY_unscaled := initialState.pos.y + offY + (initialState.size.height * visH_pct) / 2
  let screenCenterX := canvasLeft + (itemCenterX_unscaled * scale)
  let screenCenterY := canvasTop + (itemCenterY_unscaled * scale)
  let angle := atan2 (clientY - screenCenterY) (clientX - screenCenterX)
  let deg := angle * (180 / Real.pi) + 90
  { position := none, size := none, rotation := some deg, crop := none }

/-- Embeds the scale computation of src/components/Canvas.tsx: the useState
default 1 (line 156) while the base image dimensions are unknown, and the
updateScale closure (lines 176 to 201) with its fixed padding of 40 once they
are known. -/
def updateScale (containerW containerH : ℚ) (baseDimensions : Option (Size ℚ)) : ℚ :=
  match baseDimensions with
  | none => 1
  | some d => min ((containerW - 40) / d.width) ((containerH - 40) / d.height)

/-- Models the DRAG branch of handleMouseMove (src/components/Canvas.tsx,
lines 222 to 231): the raw screen delta from the gesture start position is
divided by the viewport scale and passed to calculateDragUpdate. -/
def dragFromPointer (initialState : InitialItemState ℚ)
    (scale clientX clientY startX startY : ℚ) : Patch ℚ :=
  calculateDragUpdate initialState ((clientX - startX) / scale) ((clientY - startY) / scale)

/-- Models the resize branch of handleMouseMove (src/components/Canvas.tsx,
lines 240 to 243): both deltas dx and dy are computed from the pointer event,
but only dx is passed to calculateResizeUpdate. -/
def resizeFromPointer (dragMode : DragMode) (initialState : InitialItemState ℚ)
    (scale clientX clientY startX startY : ℚ) : Patch ℚ :=
  calculateResizeUpdate dragMode ((clientX - startX) / scale) initialState

/-- Embeds the CollageItem interface of src/types.ts. -/
structure CollageItem where
  id : String
  originalSrc : String
  aiOutputSrc : Option String
  processedSrc : Option String
  showCutout : Bool
  invertMask : Bool
  isMirrored : Bool
  style : LayerStyle
  isProcessing : Bool
  position : Pos ℚ
  size : Size ℚ
  crop : Crop ℚ
  zIndex : ℕ
  rotation : ℚ
  name : String
deriving DecidableEq

/-- Embeds the AppState value held by the useState hook in src/App.tsx. -/
structure AppState where
  baseImage : Option String
  items : List CollageItem
  selectedItemId : Option String
  isExporting : Bool
  filename : Option String
  thumbnail : Option String
  canvasDimensions : Option (Size ℚ)
  hasBorder : Bool
  caption : Option String
deriving DecidableEq

/-- Largest element of a list of naturals, 0 for the empty list: models the
expression items.length greater than 0 then Math.max over the zIndex values
else 0 used in handleSourceImageUpload (src/App.tsx, line 170). -/
def maxOfList : List ℕ → ℕ
  | [] => 0
  | z :: zs => zs.foldl max z

/-- Largest zIndex among the items, 0 when there are none (src/App.tsx,
line 170). -/
def maxZ (items : List CollageItem) : ℕ :=
  maxOfList (items.map (fun i => i.zIndex))

/-- Embeds handleSourceImageUpload (src/App.tsx, lines 168 to 233) as far as
the layer collection is concerned: the externally determined fields of the
new layer (its id from the clock, its size from the decoded image, its
randomized position) are taken as the template argument; the handler assigns
zIndex maxZ plus 1, appends the new item at the end and selects it. -/
def handleSourceImageUpload (template : CollageItem) (st : AppState) : AppState :=
  { st with
      items := st.items ++ [{ template with zIndex := maxZ st.items + 1 }],
      selectedItemId := some template.id }

/-- Embeds removeItem (src/App.tsx, lines 277 to 283): filters the layer out
and sets selectedItemId to null, with no zIndex reassignment. -/
def removeItem (id : String) (st : AppState) : AppState :=
  { st with
      items := st.items.filter (fun item => item.id ≠ id),
      selectedItemId := none }

/-- Embeds the reassignment map of handleSort (src/App.tsx, lines 299 to
302): every item of the list receives zIndex equal to its array index plus
one; the first argument is the index of the head. -/
def reassignZ : ℕ → List CollageItem → List CollageItem
  | _, [] => []
  | n, item :: rest => { item with zIndex := n + 1 } :: reassignZ (n + 1) rest

/-- Embeds handleSort (src/App.tsx, lines 289 to 308).  The two arguments are
the visual list indices held by draggingItemRef and dragOverItemRef; the
visual list shows the topmost layer first, so index i translates to array
index count minus 1 minus i.  The dragged element is spliced out, spliced
back in at the target index, and every zIndex is reassigned contiguously.
When the source index finds no element the list is returned unchanged (in the
running app the indices always index existing list rows). -/
def handleSort (draggingItem dragOverItem : ℕ) (items : List CollageItem) : List CollageItem :=
  match items[items.length - 1 - draggingItem]? with
  | none => items
  | some dragged =>
      reassignZ 0 ((items.eraseIdx (items.length - 1 - draggingItem)).insertIdx
        (items.length - 1 - dragOverItem) dragged)

/-- One operation on the layer collection of src/App.tsx. -/
inductive LayerOp where
  | append (template : CollageItem)
  | remove (id : String)
  | reorder (draggingItem dragOverItem : ℕ)
deriving DecidableEq

/-- Whether the operation is a removal. -/
def LayerOp.isRemove : LayerOp → Bool
  | .remove _ => true
  | _ => false

/-- Applies one layer collection operation to the app state, dispatching to
the corresponding handler of src/App.tsx. -/
def applyOp (st : AppState) : LayerOp → AppState
  | .append t => handleSourceImageUpload t st
  | .remove id => removeItem id st
  | .reorder d o => { st with items := handleSort d o st.items }

/-- Applies a sequence of layer collection operations from left to right. -/
def applyOps (ops : List LayerOp) (st : AppState) : AppState :=
  ops.foldl applyOp st

/-- Embeds the initial useState value of src/App.tsx (lines 21 to 30): no
background, an empty layer list, nothing selected. -/
def emptyAppState : AppState :=
  { baseImage := none, items := [], selectedItemId := none, isExporting := false,
    filename := none, thumbnail := none, canvasDimensions := none,
    hasBorder := false, caption := none }

/-- The zIndex values of the items, in array order, are exactly 1 to N: the
contiguity property the spec asserts of the layer collection. -/
def zContiguous (items : List CollageItem) : Prop :=
  items.map (fun i => i.zIndex) = List.range' 1 items.length

instance (items : List CollageItem) : Decidable (zContiguous items) := by
  unfold zContiguous
  infer_instance

/-- The crop invariant stated by the spec: each inset lies in the interval
from 0 to 90 and opposing insets sum to less than 100. -/
def cropOk (c : Crop ℚ) : Prop :=
  0 ≤ c.top ∧ c.top ≤ 90 ∧ 0 ≤ c.bottom ∧ c.bottom ≤ 90 ∧
  0 ≤ c.left ∧ c.left ≤ 90 ∧ 0 ≤ c.right ∧ c.right ≤ 90 ∧
  c.top + c.bottom < 100 ∧ c.left + c.right < 100

instance (c : Crop ℚ) : Decidable (cropOk c) := by
  unfold cropOk
  infer_instance

/-- Applies one crop edge drag to a snapshot: the crop of the patch produced
by calculateCropUpdate replaces the crop of the state, everything else is
unchanged (as onUpdateItem does for a crop patch in src/App.tsx). -/
def applyCropDrag (st : InitialItemState ℚ) (m : DragMode) (dx dy : ℚ) :
    InitialItemState ℚ :=
  { st with crop := ((calculateCropUpdate m dx dy st).crop).getD st.crop }

/-- Applies a sequence of crop edge drags from left to right. -/
def applyCropDrags (st : InitialItemState ℚ) (drags : List (DragMode × ℚ × ℚ)) :
    InitialItemState ℚ :=
  drags.foldl (fun s d => applyCropDrag s d.1 d.2.1 d.2.2) st

/-- Sample layer template used for concrete evaluations. -/
def mkItem (id : String) : CollageItem :=
  { id := id, originalSrc := "", aiOutputSrc := none, processedSrc := none,
    showCutout := true, invertMask := false, isMirrored := false,
    style := LayerStyle.normal, isProcessing := true,
    position := ⟨200, 200⟩, size := ⟨200, 200⟩, crop := ⟨0, 0, 0, 0⟩,
    zIndex := 0, rotation := 0, name := "Object" }

/-- Snapshot of a 200 by 100 layer at the origin with no crop. -/
def stWide : InitialItemState ℚ := ⟨⟨0, 0⟩, ⟨200, 100⟩, 0, ⟨0, 0, 0, 0⟩⟩

/-- Snapshot of a 100 by 100 layer at the origin with no crop. -/
def stSquare : InitialItemState ℚ := ⟨⟨0, 0⟩, ⟨100, 100⟩, 0, ⟨0, 0, 0, 0⟩⟩

/-- A clamped width is at least 50, the derived height is width times the
inverse aspect ratio, and when the snapshot is at least as tall as it is wide
the derived height is also at least 50. -/
lemma resize_width_bounds (w h e : ℚ) (hw : 0 < w) :
    50 ≤ max 50 e ∧
    max 50 e / (w / h) = max 50 e * h / w ∧
    (w ≤ h → 50 ≤ max 50 e / (w / h)) := by
  refine ⟨le_max_left _ _, div_div_eq_mul_div _ _ _, fun hle => ?_⟩
  rw [div_div_eq_mul_div, le_div_iff₀ hw]
  have h50 : (0:ℚ) ≤ max 50 e := le_trans (by norm_num) (le_max_left _ _)
  exact mul_le_mul (le_max_left 50 e) hle (le_of_lt hw) h50

/-- Claim C1 (counterexample): the height returned by a resize is not always
at least 50.  For the 200 by 100 snapshot with no crop, a top left resize
with delta 200 clamps the width to 50 but derives a height of 25. -/
theorem resize_height_floor_counterexample :
    0 < stWide.size.width ∧ 0 < stWide.size.height ∧
    (calculateResizeUpdate DragMode.RESIZE_TL 200 stWide).size =
      some ⟨50, 25⟩ ∧
    (calculateResizeUpdate DragMode.RESIZE_TL 200 stWide).sizeD.height < 50 := by
  refine ⟨by decide, by decide, ?_, ?_⟩ <;>
    norm_num [calculateResizeUpdate, Patch.sizeD, stWide, max_def]

/-- Claim C1 (amended): for every resize corner and every delta on a snapshot
of positive size, the resulting width is at least 50; the derived height
equals the new width times snapshot height over snapshot width, so it is at
least 50 whenever the snapshot is at least as tall as it is wide, but it can
drop below 50 for a snapshot wider than tall. -/
theorem resize_size_floor_amended (m : DragMode) (st : InitialItemState ℚ) (dx : ℚ)
    (hm : m = DragMode.RESIZE_TL ∨ m = DragMode.RESIZE_TR ∨
          m = DragMode.RESIZE_BL ∨ m = DragMode.RESIZE_BR)
    (hw : 0 < st.size.width) (hh : 0 < st.size.height) :
    50 ≤ (calculateResizeUpdate m dx st).sizeD.width ∧
    (calculateResizeUpdate m dx st).sizeD.height =
      (calculateResizeUpdate m dx st).sizeD.width * st.size.height / st.size.width ∧
    (st.size.width ≤ st.size.height →
      50 ≤ (calculateResizeUpdate m dx st).sizeD.height) := by
  rcases hm with h | h | h | h <;> subst h <;>
    simp only [calculateResizeUpdate, Patch.sizeD, Option.getD_some] <;>
    exact resize_width_bounds _ _ _ hw

/-- Witness for resize_size_floor_amended at the square snapshot with zero
delta. -/
theorem resize_size_floor_amended_witness :
    50 ≤ (calculateResizeUpdate DragMode.RESIZE_TL 0 stSquare).sizeD.width ∧
    (calculateResizeUpdate DragMode.RESIZE_TL 0 stSquare).sizeD.height =
      (calculateResizeUpdate DragMode.RESIZE_TL 0 stSquare).sizeD.width *
        stSquare.size.height / stSquare.size.width ∧
    (stSquare.size.width ≤ stSquare.size.height →
      50 ≤ (calculateResizeUpdate DragMode.RESIZE_TL 0 stSquare).sizeD.height) :=
  resize_size_floor_amended DragMode.RESIZE_TL stSquare 0 (Or.inl rfl)
    (by decide) (by decide)

/-- Claim C4: a top left resize keeps the bottom right corner of the full box
fixed, for every delta, including when the 50 unit width clamp activates. -/
theorem resize_tl_anchor_fixed (st : InitialItemState ℚ) (dx : ℚ)
    (hw : 0 < st.size.width) (hh : 0 < st.size.height) :
    (calculateResizeUpdate DragMode.RESIZE_TL dx st).posD.x +
      (calculateResizeUpdate DragMode.RESIZE_TL dx st).sizeD.width =
      st.pos.x + st.size.width ∧
    (calculateResizeUpdate DragMode.RESIZE_TL dx st).posD.y +
      (calculateResizeUpdate DragMode.RESIZE_TL dx st).sizeD.height =
      st.pos.y + st.size.height := by
  simp only [calculateResizeUpdate, Patch.posD, Patch.sizeD, Option.getD_some]
  constructor <;> ring

/-- Witness for resize_tl_anchor_fixed at the square snapshot with delta 7. -/
theorem resize_tl_anchor_fixed_witness :
    (calculateResizeUpdate DragMode.RESIZE_TL 7 stSquare).posD.x +
      (calculateResizeUpdate DragMode.RESIZE_TL 7 stSquare).sizeD.width =
      stSquare.pos.x + stSquare.size.width ∧
    (calculateResizeUpdate DragMode.RESIZE_TL 7 stSquare).posD.y +
      (calculateResizeUpdate DragMode.RESIZE_TL 7 stSquare).sizeD.height =
      stSquare.pos.y + stSquare.size.height :=
  resize_tl_anchor_fixed stSquare 7 (by decide) (by decide)

/-- Claim C6: a translate gesture adds the screen delta divided by the
viewport scale to the snapshot position and patches nothing else; with
snapshot position (10, 10), screen delta (60, -40) and scale 2 the new
position is (40, -10). -/
theorem drag_update_spec :
    (∀ (st : InitialItemState ℚ) (scale cx cy sx sy : ℚ),
      dragFromPointer st scale cx cy sx sy =
        { position := some ⟨st.pos.x + (cx - sx) / scale, st.pos.y + (cy - sy) / scale⟩,
          size := none, rotation := none, crop := none }) ∧
    dragFromPointer ⟨⟨10, 10⟩, ⟨200, 200⟩, 0, ⟨0, 0, 0, 0⟩⟩ 2 60 (-40) 0 0 =
      { position := some ⟨40, -10⟩, size := none, rotation := none, crop := none } := by
  refine ⟨fun st scale cx cy sx sy => rfl, ?_⟩
  norm_num [dragFromPointer, calculateDragUpdate]

/-- Claim C7: the viewport scale is 1 before the canvas dimensions are known,
equals the fit-inside formula with padding 40 once they are, and is a
deterministic function of the container and canvas dimensions. -/
theorem viewport_scale_spec :
    (∀ cw ch : ℚ, updateScale cw ch none = 1) ∧
    (∀ (cw ch : ℚ) (d : Size ℚ), updateScale cw ch (some d) =
      min ((cw - 40) / d.width) ((ch - 40) / d.height)) ∧
    (∀ (cw ch : ℚ) (d : Option (Size ℚ)), updateScale cw ch d = updateScale cw ch d) :=
  ⟨fun _ _ => rfl, fun _ _ _ => rfl, fun _ _ _ => rfl⟩

/-- Claim C8: for a 200 by 100 snapshot with no crop, a top left resize with
canvas delta minus 50 yields size 250 by 125 and shifts the position by
(-50, -25), whatever the snapshot position. -/
theorem resize_scenario_a (p : Pos ℚ) :
    calculateResizeUpdate DragMode.RESIZE_TL (-50) ⟨p, ⟨200, 100⟩, 0, ⟨0, 0, 0, 0⟩⟩ =
      { position := some ⟨p.x - 50, p.y - 25⟩, size := some ⟨250, 125⟩,
        rotation := none, crop := none } := by
  simp [calculateResizeUpdate, max_def]
  norm_num
  constructor <;> ring

/-- Folding max over a nonempty arithmetic range gives the larger of the
seed and the last range element. -/
lemma foldl_max_range' (k : ℕ) : ∀ s a : ℕ,
    List.foldl max a (List.range' s (k + 1)) = max a (s + k) := by
  induction k with
  | zero => intro s a; simp [List.range']
  | succ n ih =>
      intro s a
      rw [List.range'_succ, List.foldl_cons, ih]
      omega

/-- The maximum of the list 1 to n is n. -/
lemma maxOfList_range' (n : ℕ) : maxOfList (List.range' 1 n) = n := by
  cases n with
  | zero => rfl
  | succ k =>
      rw [List.range'_succ]
      show List.foldl max 1 (List.range' 2 k) = k + 1
      cases k with
      | zero => rfl
      | succ j => rw [foldl_max_range']; omega

/-- On a collection with contiguous zIndex values, maxZ is the number of
layers. -/
lemma maxZ_of_contiguous (items : List CollageItem) (h : zContiguous items) :
    maxZ items = items.length := by
  unfold zContiguous at h
  unfold maxZ
  rw [h]
  exact maxOfList_range' _

/-- The zIndex values after reassignment starting at index n are the range
from n + 1 of the list length. -/
lemma reassignZ_map (l : List CollageItem) : ∀ n : ℕ,
    (reassignZ n l).map (fun i => i.zIndex) = List.range' (n + 1) l.length := by
  induction l with
  | nil => intro n; rfl
  | cons it rest ih =>
      intro n
      simp [reassignZ, List.range'_succ, ih]

/-- Reassignment preserves the length of the list. -/
lemma reassignZ_length (l : List CollageItem) : ∀ n : ℕ,
    (reassignZ n l).length = l.length := by
  induction l with
  | nil => intro n; rfl
  | cons it rest ih => intro n; simp [reassignZ, ih]

/-- Reordering through handleSort preserves contiguity of the zIndex values:
whatever splice happened, the final reassignment renumbers 1 to N. -/
lemma handleSort_contiguous (d o : ℕ) (items : List CollageItem)
    (h : zContiguous items) : zContiguous (handleSort d o items) := by
  unfold handleSort
  cases hq : items[items.length - 1 - d]? with
  | none => exact h
  | some dragged =>
      unfold zContiguous
      rw [reassignZ_map, reassignZ_length]

/-- Appending through handleSourceImageUpload preserves contiguity: the new
layer receives zIndex maxZ plus 1, which on a contiguous collection is N
plus 1. -/
lemma append_contiguous (t : CollageItem) (st : AppState)
    (h : zContiguous st.items) :
    zContiguous (handleSourceImageUpload t st).items := by
  have hmax : maxZ st.items = st.items.length := maxZ_of_contiguous st.items h
  unfold zContiguous at h ⊢
  simp only [handleSourceImageUpload, List.map_append, List.length_append,
    List.map_cons, List.map_nil, List.length_cons, List.length_nil]
  rw [h, hmax, List.range'_concat]
  simp [Nat.add_comm]

/-- Any sequence of append and reorder operations preserves contiguity of
the zIndex values. -/
lemma applyOps_contiguous (ops : List LayerOp) : ∀ st : AppState,
    (∀ op ∈ ops, op.isRemove = false) → zContiguous st.items →
    zContiguous (applyOps ops st).items := by
  induction ops with
  | nil => intro st _ h; exact h
  | cons op rest ih =>
      intro st hops h
      show zContiguous (applyOps rest (applyOp st op)).items
      apply ih
      · intro o ho; exact hops o (List.mem_cons_of_mem _ ho)
      · cases op with
        | append t => exact append_contiguous t st h
        | remove id =>
            exact absurd (hops _ (List.mem_cons_self _ _))
              (by simp [LayerOp.isRemove])
        | reorder d o => exact handleSort_contiguous d o st.items h

/-- Claim C2 (counterexample): removal does not reassign zIndex values.
Appending two layers and removing the first leaves one layer whose zIndex is
2, not the contiguous sequence 1 to 1. -/
theorem zindex_contiguity_counterexample :
    ((applyOps [LayerOp.append (mkItem "a"), LayerOp.append (mkItem "b"),
        LayerOp.remove "a"] emptyAppState).items.map (fun i => i.zIndex)) = [2] ∧
    ¬ zContiguous (applyOps [LayerOp.append (mkItem "a"), LayerOp.append (mkItem "b"),
        LayerOp.remove "a"] emptyAppState).items := by
  constructor
  · decide
  · decide

/-- Claim C2 (amended): after any sequence of append and reorder operations
on an initially empty collection, the zIndex values in array order are
exactly 1 to N (so their multiset is 1 to N with no gaps or duplicates);
removeItem merely filters, so a removal of a layer other than the topmost
leaves a gap. -/
theorem zindex_contiguity_no_removal (ops : List LayerOp)
    (h : ∀ op ∈ ops, op.isRemove = false) :
    zContiguous (applyOps ops emptyAppState).items :=
  applyOps_contiguous ops emptyAppState h rfl

/-- Witness for zindex_contiguity_no_removal on an append followed by a
reorder. -/
theorem zindex_contiguity_no_removal_witness :
    zContiguous (applyOps [LayerOp.append (mkItem "a"), LayerOp.reorder 0 0]
      emptyAppState).items :=
  zindex_contiguity_no_removal _ (by decide)

/-- Clamping a value into the interval from 0 to 90 minus an opposing inset
that itself lies in the interval from 0 to 90 yields a value in that
interval, and the clamped value plus the opposing inset stays below 100. -/
lemma clampEdge (x e : ℚ) (he0 : 0 ≤ e) (he90 : e ≤ 90) :
    0 ≤ min (max 0 x) (90 - e) ∧ min (max 0 x) (90 - e) ≤ 90 ∧
    min (max 0 x) (90 - e) + e < 100 := by
  have h1 : min (max 0 x) (90 - e) ≤ 90 - e := min_le_right _ _
  exact ⟨le_min (le_max_left 0 x) (by linarith), by linarith, by linarith⟩

/-- One crop edge drag preserves the crop invariant, whatever the drag mode
and the deltas. -/
lemma cropDrag_preserves (st : InitialItemState ℚ) (m : DragMode) (dx dy : ℚ)
    (h : cropOk st.crop) : cropOk (applyCropDrag st m dx dy).crop := by
  obtain ⟨ht0, ht9, hb0, hb9, hl0, hl9, hr0, hr9, htb, hlr⟩ := h
  cases m
  all_goals try exact ⟨ht0, ht9, hb0, hb9, hl0, hl9, hr0, hr9, htb, hlr⟩
  case CROP_T =>
      have hc := clampEdge (st.crop.top + dy / st.size.height * 100) st.crop.bottom hb0 hb9
      simp only [applyCropDrag, calculateCropUpdate, cropOk, Option.getD_some]
      exact ⟨hc.1, hc.2.1, hb0, hb9, hl0, hl9, hr0, hr9, hc.2.2, hlr⟩
  case CROP_B =>
      have hc := clampEdge (st.crop.bottom - dy / st.size.height * 100) st.crop.top ht0 ht9
      simp only [applyCropDrag, calculateCropUpdate, cropOk, Option.getD_some]
      exact ⟨ht0, ht9, hc.1, hc.2.1, hl0, hl9, hr0, hr9, by linarith [hc.2.2], hlr⟩
  case CROP_L =>
      have hc := clampEdge (st.crop.left + dx / st.size.width * 100) st.crop.right hr0 hr9
      simp only [applyCropDrag, calculateCropUpdate, cropOk, Option.getD_some]
      exact ⟨ht0, ht9, hb0, hb9, hc.1, hc.2.1, hr0, hr9, htb, hc.2.2⟩
  case CROP_R =>
      have hc := clampEdge (st.crop.right - dx / st.size.width * 100) st.crop.left hl0 hl9
      simp only [applyCropDrag, calculateCropUpdate, cropOk, Option.getD_some]
      exact ⟨ht0, ht9, hb0, hb9, hl0, hl9, hc.1, hc.2.1, htb, by linarith [hc.2.2]⟩

/-- A whole sequence of crop edge drags preserves the crop invariant. -/
lemma cropDrags_preserves (drags : List (DragMode × ℚ × ℚ)) :
    ∀ st : InitialItemState ℚ,
    cropOk st.crop → cropOk (applyCropDrags st drags).crop := by
  induction drags with
  | nil => intro st h; exact h
  | cons d rest ih =>
      intro st h
      show cropOk (applyCropDrags (applyCropDrag st d.1 d.2.1 d.2.2) rest).crop
      exact ih _ (cropDrag_preserves st d.1 d.2.1 d.2.2 h)

/-- Claim C3: a crop top drag clamps the top inset into the interval from 0
to 90 minus the bottom inset; every single edge drag preserves the crop
invariant, hence it holds after every sequence of crop edge drags; and
dragging top down by 15 percent with bottom already at 80 yields top 10. -/
theorem crop_budget_invariant :
    (∀ (st : InitialItemState ℚ) (dx dy : ℚ),
      0 ≤ st.crop.bottom → st.crop.bottom ≤ 90 →
      0 ≤ (((calculateCropUpdate DragMode.CROP_T dx dy st).crop).getD st.crop).top ∧
      (((calculateCropUpdate DragMode.CROP_T dx dy st).crop).getD st.crop).top ≤
        90 - st.crop.bottom) ∧
    (∀ (st : InitialItemState ℚ) (m : DragMode) (dx dy : ℚ),
      cropOk st.crop → cropOk (applyCropDrag st m dx dy).crop) ∧
    (∀ (st : InitialItemState ℚ) (drags : List (DragMode × ℚ × ℚ)),
      cropOk st.crop → cropOk (applyCropDrags st drags).crop) ∧
    (calculateCropUpdate DragMode.CROP_T 0 15
        ⟨⟨0, 0⟩, ⟨100, 100⟩, 0, ⟨0, 80, 0, 0⟩⟩).crop = some ⟨10, 80, 0, 0⟩ := by
  refine ⟨?_, fun st m dx dy h => cropDrag_preserves st m dx dy h,
    fun st drags h => cropDrags_preserves drags st h, ?_⟩
  · intro st dx dy hb0 hb9
    simp only [calculateCropUpdate, Option.getD_some]
    exact ⟨le_min (le_max_left _ _) (by linarith), min_le_right _ _⟩
  · norm_num [calculateCropUpdate, min_def, max_def]

/-- Witness for crop_budget_invariant: two successive edge drags on an
uncropped 100 by 100 snapshot keep the crop invariant. -/
theorem crop_budget_invariant_witness :
    cropOk (applyCropDrags ⟨⟨0, 0⟩, ⟨100, 100⟩, 0, ⟨0, 0, 0, 0⟩⟩
      [(DragMode.CROP_T, 0, 15), (DragMode.CROP_B, 0, -10)]).crop :=
  crop_budget_invariant.2.2.1 _ _ (by norm_num [cropOk])

/-- The atan2 angle of a point straight below the origin (screen coordinates
grow downward, so a pointer above the center has negative y offset) is minus
half pi. -/
lemma atan2_above : atan2 (-50) 0 = -(Real.pi / 2) := by
  unfold atan2
  rw [if_neg (by norm_num), if_neg (by norm_num), if_neg (by norm_num),
    if_neg (by norm_num), if_pos (by norm_num)]

/-- The atan2 angle of a point straight to the right of the origin is 0. -/
lemma atan2_to_right : atan2 0 50 = 0 := by
  unfold atan2
  rw [if_pos (by norm_num : (0:ℝ) < 50)]
  norm_num

/-- Claim C5: calculateRotationUpdate returns a patch with only the rotation
field; for an uncropped layer whose visual center projects to screen point
(100, 100) with canvas origin (0, 0) and scale 1, a pointer straight above
the center at (100, 50) yields rotation 0 and a pointer straight to the
right at (150, 100) yields rotation 90. -/
theorem rotation_reference_points :
    (∀ (cx cy : ℝ) (st : InitialItemState ℝ) (s l t : ℝ),
      (calculateRotationUpdate cx cy st s l t).position = none ∧
      (calculateRotationUpdate cx cy st s l t).size = none ∧
      (calculateRotationUpdate cx cy st s l t).crop = none) ∧
    calculateRotationUpdate 100 50 ⟨⟨0, 0⟩, ⟨200, 200⟩, 0, ⟨0, 0, 0, 0⟩⟩ 1 0 0 =
      { position := none, size := none, rotation := some 0, crop := none } ∧
    calculateRotationUpdate 150 100 ⟨⟨0, 0⟩, ⟨200, 200⟩, 0, ⟨0, 0, 0, 0⟩⟩ 1 0 0 =
      { position := none, size := none, rotation := some 90, crop := none } := by
  refine ⟨fun cx cy st s l t => ⟨rfl, rfl, rfl⟩, ?_, ?_⟩
  · simp only [calculateRotationUpdate, Patch.mk.injEq, Option.some.injEq]
    norm_num
    rw [atan2_above]
    have hpi := Real.pi_ne_zero
    field_simp
    ring
  · simp only [calculateRotationUpdate, Patch.mk.injEq, Option.some.injEq]
    norm_num
    rw [atan2_to_right]
    norm_num

/-- Claim C9: removeItem sets selectedItemId to null unconditionally, for
every app state and every id, whether or not the removed layer was the
selected one. -/
theorem removeItem_clears_selection (st : AppState) (id : String) :
    (removeItem id st).selectedItemId = none := rfl

/-- Claim C10: the resize dispatch reads only the horizontal pointer
coordinates; two pointer events with the same horizontal data and arbitrary
vertical data produce identical patches, for every corner mode and snapshot. -/
theorem resize_ignores_dy (m : DragMode) (st : InitialItemState ℚ)
    (scale cx sx cy1 sy1 cy2 sy2 : ℚ) :
    resizeFromPointer m st scale cx cy1 sx sy1 =
      resizeFromPointer m st scale cx cy2 sx sy2 := rfl

end NGL
